import Mathlib

/-
  Verification of the gas-estimation and aggregation core of the
  farcaster24 frontend, a shallow embedding of
  src/frontend/frontend/src/app/api/gas/route.ts.

  Modelling conventions:
  - JavaScript numbers are modelled by exact rationals; Number(x.toFixed(d))
    on the nonnegative values arising here is modelled as round-half-up to d
    fractional digits.
  - Math.random() is modelled by an explicit stream rand of rationals
    drawn from [0,1); each call of generateMockGasData with nonzero txCount
    consumes two consecutive draws, in the order the source calls
    Math.random().
  - The single awaited fetch to the backend is modelled by a FetchResult
    value: either the fetch throws, or it returns a response with an ok flag
    and a parsed JSON body. The handler is a total function of the request
    username, the fetch outcome and the random stream; whether the fetch was
    attempted and which username string was put in the request URL are
    recorded in the result for the control-flow claims.
-/

namespace GasApi

/-- Round-half-up to d fractional digits in exact rational arithmetic,
modelling Number(x.toFixed(d)) on nonnegative values. -/
def roundTo (d : ℕ) (x : ℚ) : ℚ := (⌊x * 10 ^ d + 1 / 2⌋ : ℚ) / 10 ^ d

/-- JavaScript String.prototype.trim: drop leading and trailing whitespace
characters. -/
def jsTrim (s : String) : String :=
  String.mk (((s.data.dropWhile Char.isWhitespace).reverse.dropWhile
    Char.isWhitespace).reverse)

/-- The two supported chains of route.ts (parameter chain: 'eth' | 'base'). -/
inductive Chain where
  | eth
  | base
  deriving DecidableEq

/-- Return value of generateMockGasData: gasUsed, gasCostETH (cost in the
chain's native token) and gasCostUSD. -/
structure GasEstimate where
  gasUsed : ℕ
  gasCostETH : ℚ
  gasCostUSD : ℚ
  deriving DecidableEq

/-- Per-transaction gas draw of route.ts lines 10-13:
Math.floor(Math.random() * 80000) + 21000 for eth,
Math.floor(Math.random() * 30000) + 21000 for base;
r is the Math.random() draw. -/
def avgGasPerTx (chain : Chain) (r : ℚ) : ℕ :=
  match chain with
  | Chain.eth => (⌊r * 80000⌋).toNat + 21000
  | Chain.base => (⌊r * 30000⌋).toNat + 21000

/-- Gas-price draw of route.ts lines 16-18, in wei:
(Math.random() * 30 + 20) * 1e9 for eth,
(Math.random() * 0.009 + 0.001) * 1e9 for base. -/
def gasPrice (chain : Chain) (r : ℚ) : ℚ :=
  match chain with
  | Chain.eth => (r * 30 + 20) * 10 ^ 9
  | Chain.base => (r * (9 / 1000) + 1 / 1000) * 10 ^ 9

/-- The same gas-price draw expressed in the nano unit (gwei), before the
fixed 10^9 gwei-to-wei scale. -/
def gasPriceGwei (chain : Chain) (r : ℚ) : ℚ :=
  match chain with
  | Chain.eth => r * 30 + 20
  | Chain.base => r * (9 / 1000) + 1 / 1000

/-- The hard-coded mock ETH price of route.ts line 22 (fiat conversion
constant). -/
def ethPrice : ℚ := 3500

/-- generateMockGasData of route.ts lines 6-30, with the two Math.random()
draws passed explicitly (rGas for the per-tx gas draw, rPrice for the price
draw). -/
def generateMockGasData (txCount : ℕ) (chain : Chain) (rGas rPrice : ℚ) : GasEstimate :=
  if txCount = 0 then GasEstimate.mk 0 0 0
  else
    let totalGasUsed := avgGasPerTx chain rGas * txCount
    let gasCostWei : ℚ := (totalGasUsed : ℚ) * gasPrice chain rPrice
    let gasCostETH : ℚ := gasCostWei / 10 ^ 18
    let gasCostUSD : ℚ := gasCostETH * ethPrice
    GasEstimate.mk totalGasUsed (roundTo 6 gasCostETH) (roundTo 2 gasCostUSD)

/-- Number of Math.random() calls generateMockGasData makes: none on the
txCount == 0 early return, two otherwise. -/
def drawsUsed (txCount : ℕ) : ℕ := if txCount = 0 then 0 else 2

/-- Wallet shape of the API boundary: raw fields from the backend plus the
optional gas_eth / gas_base estimates attached by the handler. -/
structure Wallet where
  address : String
  eth_tx_count : ℕ
  base_tx_count : ℕ
  eth_balance : ℚ
  is_primary : Bool
  gas_eth : Option GasEstimate
  gas_base : Option GasEstimate
  deriving DecidableEq

/-- JSON body shape exchanged with the backend and returned to the client
(spec section 6); absent JSON fields are none. Constructor argument order:
success, username, fid, display_name, pfp_url, wallets, primary_wallet,
total_gas_used_eth, total_gas_used_base, total_gas_usd, error. -/
structure ApiResponse where
  success : Bool
  username : Option String
  fid : Option Int
  display_name : Option String
  pfp_url : Option String
  wallets : Option (List Wallet)
  primary_wallet : Option String
  total_gas_used_eth : Option ℚ
  total_gas_used_base : Option ℚ
  total_gas_usd : Option ℚ
  error : Option String
  deriving DecidableEq

/-- Outcome of the awaited fetch to the backend: the fetch throws (network
failure), or returns a response with its ok flag and parsed JSON body. -/
inductive FetchResult where
  | throws
  | response (ok : Bool) (data : ApiResponse)
  deriving DecidableEq

/-- The enrichment-and-accumulation loop of route.ts lines 62-80: maps the
raw wallets to enriched wallets, threading the Math.random() stream position
k, and accumulates totalGasETH, totalGasBase, totalGasUSD in wallet order. -/
def enrichFold (rand : ℕ → ℚ) (k : ℕ) : List Wallet → List Wallet × ℚ × ℚ × ℚ
  | [] => ([], 0, 0, 0)
  | w :: ws =>
    let ethGas := generateMockGasData w.eth_tx_count Chain.eth (rand k) (rand (k + 1))
    let k2 := k + drawsUsed w.eth_tx_count
    let baseGas := generateMockGasData w.base_tx_count Chain.base (rand k2) (rand (k2 + 1))
    let rest := enrichFold rand (k2 + drawsUsed w.base_tx_count) ws
    (Wallet.mk w.address w.eth_tx_count w.base_tx_count w.eth_balance w.is_primary
        (some ethGas) (some baseGas) :: rest.1,
      ethGas.gasCostETH + rest.2.1,
      baseGas.gasCostETH + rest.2.2.1,
      ethGas.gasCostUSD + baseGas.gasCostUSD + rest.2.2.2)

/-- The fixed diagnostic message of the catch block, route.ts line 96. -/
def connectionErrorMsg : String :=
  "Could not connect to backend. Make sure Python server is running on port 8000."

/-- The 400 body of route.ts lines 38-39. -/
def badRequestBody : ApiResponse :=
  ApiResponse.mk false none none none none none none none none none
    (some "Username is required")

/-- The 503 body of route.ts lines 93-98: fixed message plus the original
(untrimmed) username. -/
def connectionErrorBody (username : String) : ApiResponse :=
  ApiResponse.mk false (some username) none none none none none none none none
    (some connectionErrorMsg)

/-- Route.ts lines 61-85: if data.success and data.wallets are both truthy,
replace data.wallets by the enriched list and add the three rounded totals;
otherwise return data unchanged. -/
def addMockGasData (rand : ℕ → ℚ) (d : ApiResponse) : ApiResponse :=
  match d.success, d.wallets with
  | true, some l =>
    let r := enrichFold rand 0 l
    ApiResponse.mk d.success d.username d.fid d.display_name d.pfp_url (some r.1)
      d.primary_wallet (some (roundTo 6 r.2.1)) (some (roundTo 6 r.2.2.1))
      (some (roundTo 2 r.2.2.2)) d.error
  | _, _ => d

/-- Observable outcome of one GET request: HTTP status, JSON body, whether
the backend fetch was attempted, and the username string placed in the
backend request URL (none when no fetch happened). -/
structure GetResult where
  status : ℕ
  body : ApiResponse
  resolverCalled : Bool
  sentUsername : Option String
  deriving DecidableEq

/-- The GET handler of route.ts lines 33-103. The username query parameter
is none when absent; fetchRes is the outcome of the single awaited fetch;
rand is the Math.random() stream. A missing or whitespace-only username
short-circuits to 400 before any fetch; a thrown fetch or a non-ok response
(the thrown Error of line 55) lands in the catch block, producing 503; an ok
response is enriched by addMockGasData and returned with status 200. -/
def GET (questUsername : Option String) (fetchRes : FetchResult) (rand : ℕ → ℚ) : GetResult :=
  match questUsername with
  | none => GetResult.mk 400 badRequestBody false none
  | some username =>
    if jsTrim username = "" then GetResult.mk 400 badRequestBody false none
    else
      match fetchRes with
      | FetchResult.throws =>
        GetResult.mk 503 (connectionErrorBody username) true (some (jsTrim username))
      | FetchResult.response ok d =>
        if ok then GetResult.mk 200 (addMockGasData rand d) true (some (jsTrim username))
        else GetResult.mk 503 (connectionErrorBody username) true (some (jsTrim username))

/-- Native eth-chain cost carried by an enriched wallet (0 when the gas_eth
field is absent). -/
def ethCost (w : Wallet) : ℚ :=
  match w.gas_eth with
  | some g => g.gasCostETH
  | none => 0

/-- Native base-chain cost carried by an enriched wallet (0 when the
gas_base field is absent). -/
def baseCost (w : Wallet) : ℚ :=
  match w.gas_base with
  | some g => g.gasCostETH
  | none => 0

/-- Fiat cost carried by an enriched wallet: gas_eth.gasCostUSD +
gas_base.gasCostUSD (absent fields count 0). -/
def usdCost (w : Wallet) : ℚ :=
  (match w.gas_eth with
   | some g => g.gasCostUSD
   | none => 0) +
  (match w.gas_base with
   | some g => g.gasCostUSD
   | none => 0)

/-- The aggregation stage factored out of route.ts lines 63-84: the three
totals as rounded sums over an already-enriched wallet list. -/
def aggregate (ws : List Wallet) : ℚ × ℚ × ℚ :=
  (roundTo 6 (ws.map ethCost).sum, roundTo 6 (ws.map baseCost).sum,
    roundTo 2 (ws.map usdCost).sum)

/-- Concrete raw wallet used by the witnesses. -/
def sampleWallet : Wallet := Wallet.mk "0xabc" 100 50 (3 / 2) true none none

/-- Concrete successful backend payload used by the witnesses. -/
def sampleSuccess : ApiResponse :=
  ApiResponse.mk true (some "dwr.eth") (some 3) (some "Dan") none (some [sampleWallet])
    (some "0xabc") none none none none

/-- Concrete failing backend payload used by the witnesses. -/
def sampleFailure : ApiResponse :=
  ApiResponse.mk false (some "doesnotexist") none none none none none none none none
    (some "user not found")

/-- Constant-zero random stream used by the witnesses. -/
def zeroRand : ℕ → ℚ := fun _ => 0

/-- The per-transaction draw is at least the 21000 base added in both
chain branches. -/
lemma avgGasPerTx_ge (chain : Chain) (r : ℚ) : 21000 ≤ avgGasPerTx chain r := by
  cases chain <;> simp [avgGasPerTx]

/-- The wei price is the gwei (nano-unit) price scaled by the fixed 10^9
factor, for both chains. -/
lemma gasPrice_eq_gwei_scale (chain : Chain) (r : ℚ) :
    gasPrice chain r = gasPriceGwei chain r * 10 ^ 9 := by
  cases chain <;> simp [gasPrice, gasPriceGwei]

/-- The wei price draw is nonnegative whenever the random draw is. -/
lemma gasPrice_nonneg (chain : Chain) (r : ℚ) (hr : 0 ≤ r) : 0 ≤ gasPrice chain r := by
  cases chain <;> simp only [gasPrice] <;> nlinarith

/-- Rounding preserves nonnegativity. -/
lemma roundTo_nonneg (d : ℕ) (x : ℚ) (hx : 0 ≤ x) : 0 ≤ roundTo d x := by
  unfold roundTo
  apply div_nonneg _ (by positivity)
  have h : (0 : ℤ) ≤ ⌊x * 10 ^ d + 1 / 2⌋ := Int.floor_nonneg.mpr (by positivity)
  exact_mod_cast h

/-- Rounding fixes zero. -/
lemma roundTo_zero (d : ℕ) : roundTo d 0 = 0 := by
  unfold roundTo
  rw [show (0 : ℚ) * 10 ^ d + 1 / 2 = 1 / 2 by ring]
  norm_num

/-- Claim C1: for every chain, generateMockGasData with transaction count 0
returns exactly gasUsed 0, native cost 0, fiat cost 0, independent of the
random draws. -/
theorem estimate_zero_tx (chain : Chain) (r1 r2 : ℚ) :
    generateMockGasData 0 chain r1 r2 = GasEstimate.mk 0 0 0 := rfl

/-- Claim C3: a username that trims to the empty string yields status 400
with success false, and the backend is never contacted. -/
theorem empty_username_400 (u : String) (f : FetchResult) (rand : ℕ → ℚ)
    (h : jsTrim u = "") :
    (GET (some u) f rand).status = 400 ∧
    (GET (some u) f rand).body.success = false ∧
    (GET (some u) f rand).resolverCalled = false ∧
    (GET (some u) f rand).sentUsername = none := by
  simp [GET, h, badRequestBody]

/-- Witness for C3 at the whitespace-only username. -/
theorem empty_username_400_witness :
    (GET (some "  ") FetchResult.throws zeroRand).status = 400 ∧
    (GET (some "  ") FetchResult.throws zeroRand).body.success = false ∧
    (GET (some "  ") FetchResult.throws zeroRand).resolverCalled = false ∧
    (GET (some "  ") FetchResult.throws zeroRand).sentUsername = none :=
  empty_username_400 "  " FetchResult.throws zeroRand (by decide)

/-- Claim C4: a thrown fetch, and equally a non-ok (non-2xx) response, both
produce the structured 503 outcome with success false and the fixed
connection-error message; the handler is a total function, so the fault
never escapes as an unhandled exception. -/
theorem upstream_unavailable_503 (u : String) (f : FetchResult) (rand : ℕ → ℚ)
    (hu : jsTrim u ≠ "")
    (hf : f = FetchResult.throws ∨ ∃ d, f = FetchResult.response false d) :
    (GET (some u) f rand).status = 503 ∧
    (GET (some u) f rand).body.success = false ∧
    (GET (some u) f rand).body.error = some connectionErrorMsg := by
  rcases hf with h | ⟨d, h⟩ <;> subst h <;>
    simp [GET, hu, connectionErrorBody]

/-- Witness for C4 at a thrown fetch. -/
theorem upstream_unavailable_503_witness :
    (GET (some "alice") FetchResult.throws zeroRand).status = 503 ∧
    (GET (some "alice") FetchResult.throws zeroRand).body.success = false ∧
    (GET (some "alice") FetchResult.throws zeroRand).body.error = some connectionErrorMsg :=
  upstream_unavailable_503 "alice" FetchResult.throws zeroRand (by decide) (Or.inl rfl)

/-- Claim C5: an ok (2xx) backend response whose payload has success false
is passed through verbatim: status 200 (distinct from 503), body equal to
the backend payload, hence carrying the backend's own error message and
echoed username, with no gas fields or totals added. -/
theorem resolver_failure_passthrough (u : String) (d : ApiResponse) (rand : ℕ → ℚ)
    (hu : jsTrim u ≠ "") (hs : d.success = false) :
    (GET (some u) (FetchResult.response true d) rand).status = 200 ∧
    (GET (some u) (FetchResult.response true d) rand).status ≠ 503 ∧
    (GET (some u) (FetchResult.response true d) rand).body = d ∧
    (GET (some u) (FetchResult.response true d) rand).body.error = d.error ∧
    (GET (some u) (FetchResult.response true d) rand).body.username = d.username := by
  have hbody : (GET (some u) (FetchResult.response true d) rand).body = d := by
    simp [GET, hu, addMockGasData, hs]
  refine ⟨by simp [GET, hu], by simp [GET, hu], hbody, by rw [hbody], by rw [hbody]⟩

/-- Witness for C5 at the sample failing payload. -/
theorem resolver_failure_passthrough_witness :
    (GET (some "doesnotexist") (FetchResult.response true sampleFailure) zeroRand).status = 200 ∧
    (GET (some "doesnotexist") (FetchResult.response true sampleFailure) zeroRand).status ≠ 503 ∧
    (GET (some "doesnotexist") (FetchResult.response true sampleFailure) zeroRand).body
      = sampleFailure ∧
    (GET (some "doesnotexist") (FetchResult.response true sampleFailure) zeroRand).body.error
      = sampleFailure.error ∧
    (GET (some "doesnotexist") (FetchResult.response true sampleFailure) zeroRand).body.username
      = sampleFailure.username :=
  resolver_failure_passthrough "doesnotexist" sampleFailure zeroRand (by decide) rfl

/-- Claim C10: on a transport failure or non-ok response, the 503 body
echoes the original query-parameter username untrimmed, while the username
sent to the backend in the fetch URL is the trimmed one. -/
theorem conn_error_echoes_raw_username (u : String) (d : ApiResponse) (rand : ℕ → ℚ)
    (hu : jsTrim u ≠ "") :
    (GET (some u) FetchResult.throws rand).body.username = some u ∧
    (GET (some u) FetchResult.throws rand).sentUsername = some (jsTrim u) ∧
    (GET (some u) (FetchResult.response false d) rand).body.username = some u ∧
    (GET (some u) (FetchResult.response false d) rand).sentUsername = some (jsTrim u) := by
  simp [GET, hu, connectionErrorBody]

/-- Witness for C10 at a username with surrounding whitespace. -/
theorem conn_error_echoes_raw_username_witness :
    (GET (some " alice ") FetchResult.throws zeroRand).body.username = some " alice " ∧
    (GET (some " alice ") FetchResult.throws zeroRand).sentUsername = some (jsTrim " alice ") ∧
    (GET (some " alice ") (FetchResult.response false sampleFailure) zeroRand).body.username
      = some " alice " ∧
    (GET (some " alice ") (FetchResult.response false sampleFailure) zeroRand).sentUsername
      = some (jsTrim " alice ") :=
  conn_error_echoes_raw_username " alice " sampleFailure zeroRand (by decide)

/-- Claim C6: for positive transaction counts, gasUsed is the per-tx draw
times txCount, positive, and strictly increasing in txCount at a fixed
per-tx draw; the returned native cost is the total gas units times the
nano-unit price draw over the fixed 10^9 scale, rounded to 6 digits; the
returned fiat cost is the unrounded native cost times the fixed ethPrice
constant, rounded to 2 digits; both costs are nonnegative for nonnegative
draws. -/
theorem estimate_positive_props (txCount t2 : ℕ) (chain : Chain) (r1 r2 : ℚ)
    (ht : 0 < txCount) (ht2 : txCount < t2) (hr1 : 0 ≤ r1) (hr2 : 0 ≤ r2) :
    (generateMockGasData txCount chain r1 r2).gasUsed = avgGasPerTx chain r1 * txCount ∧
    0 < (generateMockGasData txCount chain r1 r2).gasUsed ∧
    (generateMockGasData txCount chain r1 r2).gasUsed
      < (generateMockGasData t2 chain r1 r2).gasUsed ∧
    (generateMockGasData txCount chain r1 r2).gasCostETH
      = roundTo 6 ((avgGasPerTx chain r1 * txCount : ℕ) * gasPriceGwei chain r2 / 10 ^ 9) ∧
    (generateMockGasData txCount chain r1 r2).gasCostUSD
      = roundTo 2 ((avgGasPerTx chain r1 * txCount : ℕ) * gasPrice chain r2 / 10 ^ 18
          * ethPrice) ∧
    0 ≤ (generateMockGasData txCount chain r1 r2).gasCostETH ∧
    0 ≤ (generateMockGasData txCount chain r1 r2).gasCostUSD := by
  have hne : ¬ txCount = 0 := by omega
  have hne2 : ¬ t2 = 0 := by omega
  have hpos : 0 < avgGasPerTx chain r1 :=
    lt_of_lt_of_le (by norm_num) (avgGasPerTx_ge chain r1)
  have hcost : 0 ≤ (avgGasPerTx chain r1 * txCount : ℕ) * gasPrice chain r2 / 10 ^ 18 := by
    apply div_nonneg _ (by positivity)
    exact mul_nonneg (by positivity) (gasPrice_nonneg chain r2 hr2)
  refine ⟨by simp [generateMockGasData, hne], ?_, ?_, ?_, ?_, ?_, ?_⟩
  · simp only [generateMockGasData, if_neg hne]
    exact Nat.mul_pos hpos ht
  · simp only [generateMockGasData, if_neg hne, if_neg hne2]
    exact mul_lt_mul_of_pos_left ht2 hpos
  · simp only [generateMockGasData, if_neg hne]
    congr 1
    rw [gasPrice_eq_gwei_scale]
    ring
  · simp [generateMockGasData, if_neg hne]
  · simp only [generateMockGasData, if_neg hne]
    exact roundTo_nonneg 6 _ hcost
  · simp only [generateMockGasData, if_neg hne]
    exact roundTo_nonneg 2 _ (mul_nonneg hcost (by norm_num [ethPrice]))

/-- Witness for C6 at txCount 1 against 2, eth chain, zero draws. -/
theorem estimate_positive_props_witness :
    (generateMockGasData 1 Chain.eth 0 0).gasUsed = avgGasPerTx Chain.eth 0 * 1 ∧
    0 < (generateMockGasData 1 Chain.eth 0 0).gasUsed ∧
    (generateMockGasData 1 Chain.eth 0 0).gasUsed
      < (generateMockGasData 2 Chain.eth 0 0).gasUsed ∧
    (generateMockGasData 1 Chain.eth 0 0).gasCostETH
      = roundTo 6 ((avgGasPerTx Chain.eth 0 * 1 : ℕ) * gasPriceGwei Chain.eth 0 / 10 ^ 9) ∧
    (generateMockGasData 1 Chain.eth 0 0).gasCostUSD
      = roundTo 2 ((avgGasPerTx Chain.eth 0 * 1 : ℕ) * gasPrice Chain.eth 0 / 10 ^ 18
          * ethPrice) ∧
    0 ≤ (generateMockGasData 1 Chain.eth 0 0).gasCostETH ∧
    0 ≤ (generateMockGasData 1 Chain.eth 0 0).gasCostUSD :=
  estimate_positive_props 1 2 Chain.eth 0 0 (by norm_num) (by norm_num) le_rfl le_rfl

/-- The accumulated totals of the enrichment loop are exactly the sums of
the per-wallet costs carried by the enriched list it produces. -/
lemma enrichFold_sums (rand : ℕ → ℚ) (l : List Wallet) : ∀ k : ℕ,
    (enrichFold rand k l).2.1 = (((enrichFold rand k l).1).map ethCost).sum ∧
    (enrichFold rand k l).2.2.1 = (((enrichFold rand k l).1).map baseCost).sum ∧
    (enrichFold rand k l).2.2.2 = (((enrichFold rand k l).1).map usdCost).sum := by
  induction l with
  | nil => intro k; simp [enrichFold]
  | cons w ws ih =>
    intro k
    obtain ⟨ih1, ih2, ih3⟩ := ih (k + drawsUsed w.eth_tx_count + drawsUsed w.base_tx_count)
    simp [enrichFold, ethCost, baseCost, usdCost, ih1, ih2, ih3]

/-- The three rounded totals of the success path coincide with the factored
aggregation stage applied to the enriched list. -/
lemma enrichFold_totals_eq_aggregate (rand : ℕ → ℚ) (l : List Wallet) (k : ℕ) :
    (roundTo 6 (enrichFold rand k l).2.1, roundTo 6 (enrichFold rand k l).2.2.1,
      roundTo 2 (enrichFold rand k l).2.2.2) = aggregate (enrichFold rand k l).1 := by
  obtain ⟨h1, h2, h3⟩ := enrichFold_sums rand l k
  simp [aggregate, h1, h2, h3]

/-- Claim C2: on a successful backend response carrying a wallet list, the
returned body has all three totals defined, each the rounded-after-summation
sum over the returned (enriched) wallet list of the corresponding per-wallet
costs, and an empty wallet list yields all-zero totals. -/
theorem success_totals (u : String) (d : ApiResponse) (l : List Wallet) (rand : ℕ → ℚ)
    (hu : jsTrim u ≠ "") (hs : d.success = true) (hw : d.wallets = some l) :
    (GET (some u) (FetchResult.response true d) rand).body.wallets
      = some (enrichFold rand 0 l).1 ∧
    (GET (some u) (FetchResult.response true d) rand).body.total_gas_used_eth
      = some (roundTo 6 ((((enrichFold rand 0 l).1).map ethCost).sum)) ∧
    (GET (some u) (FetchResult.response true d) rand).body.total_gas_used_base
      = some (roundTo 6 ((((enrichFold rand 0 l).1).map baseCost).sum)) ∧
    (GET (some u) (FetchResult.response true d) rand).body.total_gas_usd
      = some (roundTo 2 ((((enrichFold rand 0 l).1).map usdCost).sum)) ∧
    (l = [] →
      (GET (some u) (FetchResult.response true d) rand).body.total_gas_used_eth = some 0 ∧
      (GET (some u) (FetchResult.response true d) rand).body.total_gas_used_base = some 0 ∧
      (GET (some u) (FetchResult.response true d) rand).body.total_gas_usd = some 0) := by
  obtain ⟨ds, dus, dfid, ddn, dpf, dw, dpw, dte, dtb, dtu, derr⟩ := d
  simp only at hs hw
  subst hs hw
  obtain ⟨h1, h2, h3⟩ := enrichFold_sums rand l 0
  refine ⟨?_, ?_, ?_, ?_, ?_⟩
  · simp [GET, hu, addMockGasData]
  · simp [GET, hu, addMockGasData, h1]
  · simp [GET, hu, addMockGasData, h2]
  · simp [GET, hu, addMockGasData, h3]
  · rintro rfl
    simp [GET, hu, addMockGasData, enrichFold, roundTo_zero]

/-- Witness for C2 at the sample successful payload with one wallet. -/
theorem success_totals_witness :
    (GET (some "dwr.eth") (FetchResult.response true sampleSuccess) zeroRand).body.wallets
      = some (enrichFold zeroRand 0 [sampleWallet]).1 ∧
    (GET (some "dwr.eth")
        (FetchResult.response true sampleSuccess) zeroRand).body.total_gas_used_eth
      = some (roundTo 6 ((((enrichFold zeroRand 0 [sampleWallet]).1).map ethCost).sum)) ∧
    (GET (some "dwr.eth")
        (FetchResult.response true sampleSuccess) zeroRand).body.total_gas_used_base
      = some (roundTo 6 ((((enrichFold zeroRand 0 [sampleWallet]).1).map baseCost).sum)) ∧
    (GET (some "dwr.eth")
        (FetchResult.response true sampleSuccess) zeroRand).body.total_gas_usd
      = some (roundTo 2 ((((enrichFold zeroRand 0 [sampleWallet]).1).map usdCost).sum)) ∧
    ([sampleWallet] = ([] : List Wallet) →
      (GET (some "dwr.eth")
          (FetchResult.response true sampleSuccess) zeroRand).body.total_gas_used_eth
        = some 0 ∧
      (GET (some "dwr.eth")
          (FetchResult.response true sampleSuccess) zeroRand).body.total_gas_used_base
        = some 0 ∧
      (GET (some "dwr.eth")
          (FetchResult.response true sampleSuccess) zeroRand).body.total_gas_usd
        = some 0) :=
  success_totals "dwr.eth" sampleSuccess [sampleWallet] zeroRand (by decide) rfl rfl

/-- Claim C8: the enrichment loop maps the raw wallet list pointwise to
enriched wallets that keep the address, both transaction counts, the
balance and the primary flag unchanged, and whose gas_eth and gas_base
fields are estimates computed by generateMockGasData from the wallet's own
eth and base transaction counts at consecutive positions of the random
stream. -/
theorem enrich_preserves_raw_fields (rand : ℕ → ℚ) (k : ℕ) (l : List Wallet) :
    List.Forall₂ (fun w e =>
      e.address = w.address ∧ e.eth_tx_count = w.eth_tx_count ∧
      e.base_tx_count = w.base_tx_count ∧ e.eth_balance = w.eth_balance ∧
      e.is_primary = w.is_primary ∧
      ∃ j, e.gas_eth
          = some (generateMockGasData w.eth_tx_count Chain.eth (rand j) (rand (j + 1))) ∧
        e.gas_base
          = some (generateMockGasData w.base_tx_count Chain.base
              (rand (j + drawsUsed w.eth_tx_count))
              (rand (j + drawsUsed w.eth_tx_count + 1))))
      l (enrichFold rand k l).1 := by
  induction l generalizing k with
  | nil => exact List.Forall₂.nil
  | cons w ws ih =>
    refine List.Forall₂.cons ⟨rfl, rfl, rfl, rfl, rfl, k, rfl, rfl⟩ (ih _)

/-- Claim C9: the factored aggregation stage is invariant under permutation
of the enriched wallet list; being a pure function of that list, re-running
it on the same list trivially yields identical totals. -/
theorem aggregate_perm_invariant (l1 l2 : List Wallet) (h : l1.Perm l2) :
    aggregate l1 = aggregate l2 := by
  unfold aggregate
  rw [(h.map ethCost).sum_eq, (h.map baseCost).sum_eq, (h.map usdCost).sum_eq]

/-- Witness for C9: swapping two concrete enriched wallets leaves the
totals unchanged. -/
theorem aggregate_perm_invariant_witness :
    aggregate
        [Wallet.mk "0xa" 1 1 0 true (some (GasEstimate.mk 21000 (1 / 2) 3)) none,
          Wallet.mk "0xb" 2 0 1 false none (some (GasEstimate.mk 42000 (1 / 4) 7))]
      = aggregate
        [Wallet.mk "0xb" 2 0 1 false none (some (GasEstimate.mk 42000 (1 / 4) 7)),
          Wallet.mk "0xa" 1 1 0 true (some (GasEstimate.mk 21000 (1 / 2) 3)) none] :=
  aggregate_perm_invariant _ _
    (List.Perm.swap
      (Wallet.mk "0xb" 2 0 1 false none (some (GasEstimate.mk 42000 (1 / 4) 7)))
      (Wallet.mk "0xa" 1 1 0 true (some (GasEstimate.mk 21000 (1 / 2) 3)) none) [])

/-- Counterexample to C7 as stated: the whitespace-only username " " is a
failed lookup (validation error, status 400), yet its body does not carry
the username at all — only the error message — contradicting that every
failed lookup carries the username. -/
theorem failed_lookup_only_username_cex :
    (GET (some " ") FetchResult.throws zeroRand).status = 400 ∧
    (GET (some " ") FetchResult.throws zeroRand).body.success = false ∧
    (GET (some " ") FetchResult.throws zeroRand).body.username = none ∧
    (GET (some " ") FetchResult.throws zeroRand).body.error
      = some "Username is required" := by
  decide

/-- Claim C7 amended: every failed lookup carries an error message and no
wallet, profile or total fields; the upstream-unavailable outcome
additionally carries exactly the username, the validation-error outcome
omits the username, and the resolver-reported-failure outcome is the
Resolver's payload unchanged, hence carries only username and error
whenever the Resolver sent only those. -/
theorem failed_lookup_fields (u0 u : String) (d : ApiResponse) (rand : ℕ → ℚ)
    (h0 : jsTrim u0 = "") (hu : jsTrim u ≠ "") (hs : d.success = false)
    (hd : d.fid = none ∧ d.display_name = none ∧ d.pfp_url = none ∧
      d.wallets = none ∧ d.primary_wallet = none ∧ d.total_gas_used_eth = none ∧
      d.total_gas_used_base = none ∧ d.total_gas_usd = none) :
    (GET (some u0) FetchResult.throws rand).body
      = ApiResponse.mk false none none none none none none none none none
          (some "Username is required") ∧
    (GET (some u) FetchResult.throws rand).body
      = ApiResponse.mk false (some u) none none none none none none none none
          (some connectionErrorMsg) ∧
    (GET (some u) (FetchResult.response true d) rand).body
      = ApiResponse.mk false d.username none none none none none none none none
          d.error := by
  obtain ⟨h1, h2, h3, h4, h5, h6, h7, h8⟩ := hd
  have hbody : (GET (some u) (FetchResult.response true d) rand).body = d := by
    simp [GET, hu, addMockGasData, hs]
  refine ⟨by simp [GET, h0, badRequestBody], by simp [GET, hu, connectionErrorBody], ?_⟩
  rw [hbody]
  obtain ⟨ds, dus, dfid, ddn, dpf, dw, dpw, dte, dtb, dtu, derr⟩ := d
  simp only at hs h1 h2 h3 h4 h5 h6 h7 h8
  subst hs h1 h2 h3 h4 h5 h6 h7 h8
  rfl

/-- Witness for the amended C7 at a whitespace username, the username bob
and the sample failing payload. -/
theorem failed_lookup_fields_witness :
    (GET (some "   ") FetchResult.throws zeroRand).body
      = ApiResponse.mk false none none none none none none none none none
          (some "Username is required") ∧
    (GET (some "bob") FetchResult.throws zeroRand).body
      = ApiResponse.mk false (some "bob") none none none none none none none none
          (some connectionErrorMsg) ∧
    (GET (some "bob") (FetchResult.response true sampleFailure) zeroRand).body
      = ApiResponse.mk false sampleFailure.username none none none none none none none none
          sampleFailure.error :=
  failed_lookup_fields "   " "bob" sampleFailure zeroRand (by decide) (by decide) rfl
    ⟨rfl, rfl, rfl, rfl, rfl, rfl, rfl, rfl⟩

end GasApi
